import Mathlib

/-!
Verification of the ad-performance rule evaluator in `src/app.py`.

The evaluator reads five numeric columns per row.  After the numeric
coercion pass of the script (pd.to_numeric with coercion of errors to
NaN), every cell is either a float
or NaN (missing / malformed).  We model a cell as `Option ℚ` with `none`
for NaN, and reproduce Python float comparison semantics: every ordered
comparison against NaN is false.
-/

namespace AdReview

/-- One input row after numeric coercion: `spend`, `ctr`, `cpc`, `clicks`,
`roas` in the order `evaluate` reads them; `none` models NaN (absent or
malformed cell). -/
structure AdRecord where
  spend : Option ℚ
  ctr : Option ℚ
  cpc : Option ℚ
  clicks : Option ℚ
  roas : Option ℚ

/-- The caller-supplied thresholds read by `evaluate` from the UI widgets:
`ctr_threshold` (decimal fraction), `initial_spend_threshold` (Mockup and
Cycle 1), `cpc_threshold`, `cycle2_spend_threshold`. -/
structure ThresholdConfig where
  ctr_threshold : ℚ
  initial_spend_threshold : ℚ
  cpc_threshold : ℚ
  cycle2_spend_threshold : ℚ

/-- Python `x < t` where `x` may be NaN: a comparison with NaN is false. -/
def nanLt : Option ℚ → ℚ → Bool
  | none, _ => false
  | some x, t => decide (x < t)

/-- Python `x > t` where `x` may be NaN: a comparison with NaN is false. -/
def nanGt : Option ℚ → ℚ → Bool
  | none, _ => false
  | some x, t => decide (t < x)

/-- Python `x <= t` where `x` may be NaN: a comparison with NaN is false. -/
def nanLe : Option ℚ → ℚ → Bool
  | none, _ => false
  | some x, t => decide (x ≤ t)

/-- `pd.isna`. -/
def isna : Option ℚ → Bool
  | none => true
  | some _ => false

/-- The hard-coded `min_clicks_for_engagement = 1` local in `evaluate`. -/
def min_clicks_for_engagement : ℚ := 1

/-- The per-row decision function `evaluate(row)` of `src/app.py`
(lines 146-223), parameterized by the thresholds and the `ad_stage`
radio-button string it closes over.  Returns the pair
(`Kill Criteria Met? (Y/N)`, `Flag Reason`). -/
def evaluate (row : AdRecord) (cfg : ThresholdConfig) (ad_stage : String) :
    String × String :=
  if ad_stage = "Mockup" then
    if nanLt row.spend cfg.initial_spend_threshold then
      ("N", "Insufficient Data")
    else if isna row.clicks || nanLt row.clicks min_clicks_for_engagement then
      ("Y", "No engagement")
    else if isna row.ctr || nanLt row.ctr cfg.ctr_threshold then
      ("Y", "Low CTR")
    else if isna row.cpc || nanGt row.cpc cfg.cpc_threshold then
      ("Y", "High CPC")
    else
      ("N", "Keep")
  else if ad_stage = "Cycle 1" then
    if nanLt row.spend cfg.initial_spend_threshold then
      ("N", "Insufficient Data")
    else if isna row.clicks || nanLt row.clicks min_clicks_for_engagement then
      ("Y", "No engagement")
    else if isna row.ctr || nanLt row.ctr cfg.ctr_threshold then
      ("Y", "Low CTR")
    else if isna row.cpc || nanGt row.cpc cfg.cpc_threshold then
      ("Y", "High CPC")
    else
      ("N", "Keep")
  else if ad_stage = "Cycle 2" then
    if nanLt row.spend cfg.cycle2_spend_threshold then
      ("N", "Insufficient Data")
    else if isna row.roas || nanLe row.roas 0 then
      ("Y", "No ROAS")
    else if isna row.ctr || nanLt row.ctr cfg.ctr_threshold then
      ("Y", "Low CTR")
    else if isna row.cpc || nanGt row.cpc cfg.cpc_threshold then
      ("Y", "High CPC")
    else
      ("N", "Keep")
  else
    ("N", "Review Manually")

/-- The `required_cols` list of `src/app.py` (lines 127-131). -/
def required_cols : List String :=
  ["Ad name", "Amount spent (USD)", "CTR (link click-through rate)",
   "CPC (cost per link click) (USD)", "Link clicks",
   "Purchase ROAS (return on ad spend)"]

/-- `missing = [col for col in required_cols if col not in df.columns]`
(line 132). -/
def missingCols (columns : List String) : List String :=
  required_cols.filter (fun c => decide (c ∉ columns))

/-- The `st.error` message of line 134. -/
def missingMessage (missing : List String) : String :=
  "Missing required columns: " ++ String.intercalate ", " missing

/-- The batch pipeline of lines 126-226: validate the schema first; on any
missing column stop with the error message before evaluating a single row
(`st.stop()`), otherwise evaluate every row. -/
def processBatch (columns : List String) (rows : List AdRecord)
    (cfg : ThresholdConfig) (ad_stage : String) :
    Except String (List (String × String)) :=
  match missingCols columns with
  | [] => Except.ok (rows.map (fun r => evaluate r cfg ad_stage))
  | c :: cs => Except.error (missingMessage (c :: cs))

/-- `nanLt (some x) t` is false exactly when the threshold is met. -/
theorem nanLt_some_false {x t : ℚ} (h : t ≤ x) : nanLt (some x) t = false := by
  simp [nanLt, not_lt.mpr h]

/-- `nanLt (some x) t` is true below the threshold. -/
theorem nanLt_some_true {x t : ℚ} (h : x < t) : nanLt (some x) t = true := by
  simp [nanLt, h]

/-- Raising the threshold preserves a failed `>` comparison. -/
theorem nanGt_le_false {x : Option ℚ} {t1 t2 : ℚ} (h : t1 ≤ t2)
    (hx : nanGt x t1 = false) : nanGt x t2 = false := by
  cases x with
  | none => rfl
  | some v =>
    simp [nanGt] at hx ⊢
    linarith

/-- The Mockup branch of `evaluate` as a bare decision chain. -/
theorem evaluate_stage_mockup (r : AdRecord) (cfg : ThresholdConfig) :
    evaluate r cfg "Mockup" =
      if nanLt r.spend cfg.initial_spend_threshold then
        ("N", "Insufficient Data")
      else if isna r.clicks || nanLt r.clicks min_clicks_for_engagement then
        ("Y", "No engagement")
      else if isna r.ctr || nanLt r.ctr cfg.ctr_threshold then
        ("Y", "Low CTR")
      else if isna r.cpc || nanGt r.cpc cfg.cpc_threshold then
        ("Y", "High CPC")
      else ("N", "Keep") := by
  simp [evaluate]

/-- The Cycle 1 branch of `evaluate` as a bare decision chain. -/
theorem evaluate_stage_cycle1 (r : AdRecord) (cfg : ThresholdConfig) :
    evaluate r cfg "Cycle 1" =
      if nanLt r.spend cfg.initial_spend_threshold then
        ("N", "Insufficient Data")
      else if isna r.clicks || nanLt r.clicks min_clicks_for_engagement then
        ("Y", "No engagement")
      else if isna r.ctr || nanLt r.ctr cfg.ctr_threshold then
        ("Y", "Low CTR")
      else if isna r.cpc || nanGt r.cpc cfg.cpc_threshold then
        ("Y", "High CPC")
      else ("N", "Keep") := by
  simp [evaluate]

/-- The Cycle 2 branch of `evaluate` as a bare decision chain. -/
theorem evaluate_stage_cycle2 (r : AdRecord) (cfg : ThresholdConfig) :
    evaluate r cfg "Cycle 2" =
      if nanLt r.spend cfg.cycle2_spend_threshold then
        ("N", "Insufficient Data")
      else if isna r.roas || nanLe r.roas 0 then
        ("Y", "No ROAS")
      else if isna r.ctr || nanLt r.ctr cfg.ctr_threshold then
        ("Y", "Low CTR")
      else if isna r.cpc || nanGt r.cpc cfg.cpc_threshold then
        ("Y", "High CPC")
      else ("N", "Keep") := by
  simp [evaluate]

/-- The fallback branch of `evaluate` for any other stage string. -/
theorem evaluate_stage_other (r : AdRecord) (cfg : ThresholdConfig)
    (s : String) (h1 : s ≠ "Mockup") (h2 : s ≠ "Cycle 1")
    (h3 : s ≠ "Cycle 2") :
    evaluate r cfg s = ("N", "Review Manually") := by
  simp [evaluate, h1, h2, h3]

/-- A Mockup verdict is `Keep` exactly when all four guards fail. -/
theorem keep_iff_mockup (r : AdRecord) (cfg : ThresholdConfig) :
    evaluate r cfg "Mockup" = ("N", "Keep") ↔
      nanLt r.spend cfg.initial_spend_threshold = false ∧
      (isna r.clicks || nanLt r.clicks min_clicks_for_engagement) = false ∧
      (isna r.ctr || nanLt r.ctr cfg.ctr_threshold) = false ∧
      (isna r.cpc || nanGt r.cpc cfg.cpc_threshold) = false := by
  rw [evaluate_stage_mockup]
  constructor
  · intro hk
    split_ifs at hk with g1 g2 g3 g4
    all_goals simp_all
  · rintro ⟨g1, g2, g3, g4⟩
    simp [g1, g2, g3, g4]

/-- A Cycle 1 verdict is `Keep` exactly when all four guards fail. -/
theorem keep_iff_cycle1 (r : AdRecord) (cfg : ThresholdConfig) :
    evaluate r cfg "Cycle 1" = ("N", "Keep") ↔
      nanLt r.spend cfg.initial_spend_threshold = false ∧
      (isna r.clicks || nanLt r.clicks min_clicks_for_engagement) = false ∧
      (isna r.ctr || nanLt r.ctr cfg.ctr_threshold) = false ∧
      (isna r.cpc || nanGt r.cpc cfg.cpc_threshold) = false := by
  rw [evaluate_stage_cycle1]
  constructor
  · intro hk
    split_ifs at hk with g1 g2 g3 g4
    all_goals simp_all
  · rintro ⟨g1, g2, g3, g4⟩
    simp [g1, g2, g3, g4]

/-- A Cycle 2 verdict is `Keep` exactly when all four guards fail. -/
theorem keep_iff_cycle2 (r : AdRecord) (cfg : ThresholdConfig) :
    evaluate r cfg "Cycle 2" = ("N", "Keep") ↔
      nanLt r.spend cfg.cycle2_spend_threshold = false ∧
      (isna r.roas || nanLe r.roas 0) = false ∧
      (isna r.ctr || nanLt r.ctr cfg.ctr_threshold) = false ∧
      (isna r.cpc || nanGt r.cpc cfg.cpc_threshold) = false := by
  rw [evaluate_stage_cycle2]
  constructor
  · intro hk
    split_ifs at hk with g1 g2 g3 g4
    all_goals simp_all
  · rintro ⟨g1, g2, g3, g4⟩
    simp [g1, g2, g3, g4]

/-- C1: a record whose spend is present and strictly below the stage
minimum spend threshold (the initial threshold for Mockup and Cycle 1, the
Cycle 2 threshold for Cycle 2) is always classified
`("N", "Insufficient Data")`, whatever the other fields hold, missing or
malformed included. -/
theorem evaluate_insufficient_spend (r : AdRecord) (cfg : ThresholdConfig)
    (s : String) (sp : ℚ) (hsp : r.spend = some sp)
    (hs : s = "Mockup" ∨ s = "Cycle 1" ∨ s = "Cycle 2")
    (hlt : sp < (if s = "Cycle 2" then cfg.cycle2_spend_threshold
                 else cfg.initial_spend_threshold)) :
    evaluate r cfg s = ("N", "Insufficient Data") := by
  rcases hs with h | h | h <;> subst h <;> simp at hlt <;>
    simp [evaluate, hsp, nanLt_some_true hlt]

/-- C1 witness at a concrete input. -/
theorem evaluate_insufficient_spend_witness :
    evaluate ⟨some 2, none, none, some 0, none⟩ ⟨3/400, 5, 1, 15⟩ "Mockup"
      = ("N", "Insufficient Data") :=
  evaluate_insufficient_spend _ _ _ 2 rfl (Or.inl rfl) (by decide)

/-- C2: first-match-wins — a Mockup record that meets the spend threshold
and satisfies both the no-engagement condition (clicks missing or below the
engagement minimum) and the low-CTR condition (ctr missing or below the
floor) is classified `("Y", "No engagement")`, never `Low CTR`. -/
theorem evaluate_no_engagement_priority (r : AdRecord) (cfg : ThresholdConfig)
    (sp : ℚ) (hsp : r.spend = some sp)
    (hge : cfg.initial_spend_threshold ≤ sp)
    (hclicks : r.clicks = none ∨
      ∃ ck, r.clicks = some ck ∧ ck < min_clicks_for_engagement)
    (hctr : r.ctr = none ∨ ∃ ct, r.ctr = some ct ∧ ct < cfg.ctr_threshold) :
    evaluate r cfg "Mockup" = ("Y", "No engagement") ∧
    (evaluate r cfg "Mockup").2 ≠ "Low CTR" := by
  have h2 : (isna r.clicks || nanLt r.clicks min_clicks_for_engagement)
      = true := by
    rcases hclicks with h | ⟨ck, hck, hlt⟩
    · simp [h, isna]
    · simp [hck, isna, nanLt_some_true hlt]
  refine ⟨?_, ?_⟩ <;>
    simp [evaluate, hsp, nanLt_some_false hge, h2]

/-- C2 witness at a concrete input: spend 10, clicks 0, ctr missing. -/
theorem evaluate_no_engagement_priority_witness :
    evaluate ⟨some 10, none, none, some 0, none⟩ ⟨3/400, 5, 1, 15⟩ "Mockup"
      = ("Y", "No engagement") :=
  (evaluate_no_engagement_priority _ _ 10 rfl (by norm_num)
    (Or.inr ⟨0, rfl, by norm_num [min_clicks_for_engagement]⟩)
    (Or.inl rfl)).1

/-- C5: missing CTR fails closed — a Mockup record with sufficient spend and
sufficient clicks but absent CTR is flagged `("Y", "Low CTR")`, whatever its
CPC. -/
theorem evaluate_missing_ctr_low_ctr (r : AdRecord) (cfg : ThresholdConfig)
    (sp ck : ℚ) (hsp : r.spend = some sp)
    (h1 : cfg.initial_spend_threshold ≤ sp)
    (hck : r.clicks = some ck) (h2 : min_clicks_for_engagement ≤ ck)
    (hctr : r.ctr = none) :
    evaluate r cfg "Mockup" = ("Y", "Low CTR") := by
  simp [evaluate, hsp, hck, hctr, isna, nanLt_some_false h1,
    nanLt_some_false h2]

/-- C5 witness: spend 10, clicks 8, ctr missing, cpc 0.5 (passing). -/
theorem evaluate_missing_ctr_low_ctr_witness :
    evaluate ⟨some 10, none, some (1/2), some 8, none⟩ ⟨3/400, 5, 1, 15⟩
      "Mockup" = ("Y", "Low CTR") :=
  evaluate_missing_ctr_low_ctr _ _ 10 8 rfl (by norm_num) rfl (by
    norm_num [min_clicks_for_engagement]) rfl

/-- C3 counterexample: the code compares CPC with strict `>` (line 176:
`cpc > cpc_threshold`), so a Mockup record whose CPC exactly equals the
ceiling of 1.00, with every other rule passing, is kept — it is not flagged
`High CPC` as the claim (and the `>=` default of the spec) would require. -/
theorem cpc_at_ceiling_counterexample :
    evaluate ⟨some 10, some (1/50), some 1, some 8, none⟩ ⟨3/400, 5, 1, 15⟩
      "Mockup" = ("N", "Keep") ∧
    evaluate ⟨some 10, some (1/50), some 1, some 8, none⟩ ⟨3/400, 5, 1, 15⟩
      "Mockup" ≠ ("Y", "High CPC") := by
  refine ⟨?_, ?_⟩ <;>
    norm_num [evaluate, nanLt, nanGt, isna, min_clicks_for_engagement] <;>
    simp

/-- C3 amended: in Mockup or Cycle 1, a record meeting the spend, clicks and
CTR thresholds whose CPC is present and strictly above the ceiling is
flagged `("Y", "High CPC")`; a CPC exactly at the ceiling passes. -/
theorem evaluate_high_cpc_strict (r : AdRecord) (cfg : ThresholdConfig)
    (s : String) (hs : s = "Mockup" ∨ s = "Cycle 1") (sp ck ct cp : ℚ)
    (hsp : r.spend = some sp) (h1 : cfg.initial_spend_threshold ≤ sp)
    (hck : r.clicks = some ck) (h2 : min_clicks_for_engagement ≤ ck)
    (hct : r.ctr = some ct) (h3 : cfg.ctr_threshold ≤ ct)
    (hcp : r.cpc = some cp) (h4 : cfg.cpc_threshold < cp) :
    evaluate r cfg s = ("Y", "High CPC") := by
  rcases hs with h | h <;> subst h <;>
    simp [evaluate, hsp, hck, hct, hcp, isna, nanGt,
      nanLt_some_false h1, nanLt_some_false h2, nanLt_some_false h3, h4]

/-- C3 amended witness: CPC 1.50 against ceiling 1.00 in Mockup. -/
theorem evaluate_high_cpc_strict_witness :
    evaluate ⟨some 10, some (1/50), some (3/2), some 8, none⟩ ⟨3/400, 5, 1, 15⟩
      "Mockup" = ("Y", "High CPC") :=
  evaluate_high_cpc_strict _ _ _ (Or.inl rfl) 10 8 (1/50) (3/2) rfl
    (by norm_num) rfl (by norm_num [min_clicks_for_engagement]) rfl
    (by norm_num) rfl (by norm_num)

/-- C4 counterexample: on the example of the spec itself (Cycle 2, spend 20,
roas 2.5, ctr 0.02, cpc 1.50 with ceiling 1.00) the code flags the record
with the plain reason `"High CPC"` — the very same reason string the
Mockup/Cycle 1 branches use — not a distinct `HighCpcConverting` code. -/
theorem cycle2_high_cpc_counterexample :
    evaluate ⟨some 20, some (1/50), some (3/2), some 8, some (5/2)⟩
      ⟨3/400, 5, 1, 15⟩ "Cycle 2" = ("Y", "High CPC") ∧
    evaluate ⟨some 10, some (1/50), some (3/2), some 8, none⟩
      ⟨3/400, 5, 1, 15⟩ "Mockup" = ("Y", "High CPC") := by
  constructor <;>
    norm_num [evaluate, nanLt, nanGt, nanLe, isna, min_clicks_for_engagement]

/-- C4 amended: a Cycle 2 record meeting the spend threshold, with positive
ROAS, passing CTR, and CPC missing or strictly above the ceiling, is flagged
with the same plain reason `("Y", "High CPC")` used by Mockup/Cycle 1 (only
the stage-dependent recommendation text differs, not the reason code). -/
theorem evaluate_cycle2_high_cpc (r : AdRecord) (cfg : ThresholdConfig)
    (sp rv ct : ℚ) (hsp : r.spend = some sp)
    (h1 : cfg.cycle2_spend_threshold ≤ sp)
    (hro : r.roas = some rv) (h2 : 0 < rv)
    (hct : r.ctr = some ct) (h3 : cfg.ctr_threshold ≤ ct)
    (hcp : r.cpc = none ∨ ∃ cp, r.cpc = some cp ∧ cfg.cpc_threshold < cp) :
    evaluate r cfg "Cycle 2" = ("Y", "High CPC") := by
  rcases hcp with h | ⟨cp, hcpe, hlt⟩
  · simp [evaluate, hsp, hro, hct, h, isna, nanLe, not_le.mpr h2,
      nanLt_some_false h1, nanLt_some_false h3]
  · simp [evaluate, hsp, hro, hct, hcpe, isna, nanGt, nanLe,
      not_le.mpr h2, nanLt_some_false h1, nanLt_some_false h3, hlt]

/-- C4 amended witness: the Cycle 2 example record of the spec. -/
theorem evaluate_cycle2_high_cpc_witness :
    evaluate ⟨some 20, some (1/50), some (3/2), some 8, some (5/2)⟩
      ⟨3/400, 5, 1, 15⟩ "Cycle 2" = ("Y", "High CPC") :=
  evaluate_cycle2_high_cpc _ _ 20 (5/2) (1/50) rfl (by norm_num) rfl
    (by norm_num) rfl (by norm_num)
    (Or.inr ⟨3/2, rfl, by norm_num⟩)

/-- C7: `evaluate` is total and single-valued — for every record, threshold
configuration and stage string it returns exactly one verdict, whose flag is
`"N"` or `"Y"` and whose reason lies in the closed reason-code set. -/
theorem evaluate_total (r : AdRecord) (cfg : ThresholdConfig) (s : String) :
    ((evaluate r cfg s).1 = "N" ∨ (evaluate r cfg s).1 = "Y") ∧
    (evaluate r cfg s).2 ∈ (["Insufficient Data", "No engagement", "Low CTR",
      "High CPC", "Keep", "No ROAS", "Review Manually"] : List String) := by
  unfold evaluate
  split_ifs <;> simp

/-- C8 counterexample: a stage string outside
{"Mockup", "Cycle 1", "Cycle 2"} does not fail — the fallback of line 223
silently returns the verdict `("N", "Review Manually")`. -/
theorem unknown_stage_counterexample :
    evaluate ⟨some 10, some (1/50), some (1/2), some 8, some 2⟩
      ⟨3/400, 5, 1, 15⟩ "Cycle 3" = ("N", "Review Manually") := rfl

/-- C8 amended: for every record and configuration, a stage outside the
enumerated set yields the fallback verdict `("N", "Review Manually")`
rather than failing loudly. -/
theorem unknown_stage_fallback (r : AdRecord) (cfg : ThresholdConfig)
    (s : String) (h1 : s ≠ "Mockup") (h2 : s ≠ "Cycle 1")
    (h3 : s ≠ "Cycle 2") :
    evaluate r cfg s = ("N", "Review Manually") :=
  evaluate_stage_other r cfg s h1 h2 h3

/-- C8 amended witness at the stage string "Launch". -/
theorem unknown_stage_fallback_witness :
    evaluate ⟨none, none, none, none, none⟩ ⟨3/400, 5, 1, 15⟩ "Launch"
      = ("N", "Review Manually") :=
  unknown_stage_fallback _ _ _ (by decide) (by decide) (by decide)

/-- C6: monotonicity in the CPC ceiling — under two configurations equal in
every threshold except that the second has a CPC ceiling at least as high, a
record kept at some stage under the first is still kept under the second. -/
theorem keep_monotone_cpc (r : AdRecord) (cfg1 cfg2 : ThresholdConfig)
    (s : String)
    (ha : cfg1.ctr_threshold = cfg2.ctr_threshold)
    (hb : cfg1.initial_spend_threshold = cfg2.initial_spend_threshold)
    (hc : cfg1.cycle2_spend_threshold = cfg2.cycle2_spend_threshold)
    (hle : cfg1.cpc_threshold ≤ cfg2.cpc_threshold)
    (hk : evaluate r cfg1 s = ("N", "Keep")) :
    evaluate r cfg2 s = ("N", "Keep") := by
  by_cases h1 : s = "Mockup"
  · subst h1
    rw [keep_iff_mockup] at hk ⊢
    obtain ⟨g1, g2, g3, g4⟩ := hk
    simp only [Bool.or_eq_false_iff] at g2 g3 g4 ⊢
    exact ⟨hb ▸ g1, g2, ha ▸ g3, g4.1, nanGt_le_false hle g4.2⟩
  by_cases h2 : s = "Cycle 1"
  · subst h2
    rw [keep_iff_cycle1] at hk ⊢
    obtain ⟨g1, g2, g3, g4⟩ := hk
    simp only [Bool.or_eq_false_iff] at g2 g3 g4 ⊢
    exact ⟨hb ▸ g1, g2, ha ▸ g3, g4.1, nanGt_le_false hle g4.2⟩
  by_cases h3 : s = "Cycle 2"
  · subst h3
    rw [keep_iff_cycle2] at hk ⊢
    obtain ⟨g1, g2, g3, g4⟩ := hk
    simp only [Bool.or_eq_false_iff] at g2 g3 g4 ⊢
    exact ⟨hc ▸ g1, g2, ha ▸ g3, g4.1, nanGt_le_false hle g4.2⟩
  · rw [evaluate_stage_other r cfg1 s h1 h2 h3] at hk
    simp at hk

/-- C6 witness: a kept Mockup record stays kept when the ceiling rises from
1.00 to 2.00. -/
theorem keep_monotone_cpc_witness :
    evaluate ⟨some 10, some (1/50), some (4/5), some 8, none⟩ ⟨3/400, 5, 2, 15⟩
      "Mockup" = ("N", "Keep") :=
  keep_monotone_cpc ⟨some 10, some (1/50), some (4/5), some 8, none⟩
    ⟨3/400, 5, 1, 15⟩ ⟨3/400, 5, 2, 15⟩ "Mockup" rfl rfl rfl (by norm_num)
    (by norm_num [evaluate, nanLt, nanGt, isna, min_clicks_for_engagement])

/-- C9: schema validation is batch-fatal and complete — whenever at least
one required column is absent, the batch is rejected with the single error
message listing the missing columns, no row result is produced, and every
absent required column appears in that list. -/
theorem missing_columns_reject (columns : List String) (rows : List AdRecord)
    (cfg : ThresholdConfig) (s : String) (h : missingCols columns ≠ []) :
    processBatch columns rows cfg s
      = Except.error (missingMessage (missingCols columns)) ∧
    ∀ c ∈ required_cols, c ∉ columns → c ∈ missingCols columns := by
  constructor
  · unfold processBatch
    cases hm : missingCols columns with
    | nil => exact absurd hm h
    | cons a as => simp
  · intro c hcmem hnc
    unfold missingCols
    simp [List.mem_filter, hcmem, hnc]

/-- C9 witness: a dataset having only the "Ad name" column is rejected with
all five other required columns reported at once. -/
theorem missing_columns_reject_witness :
    missingCols ["Ad name"] ≠ [] ∧
    (processBatch ["Ad name"] [] ⟨3/400, 5, 1, 15⟩ "Mockup"
      = Except.error (missingMessage (missingCols ["Ad name"])) ∧
    ∀ c ∈ required_cols, c ∉ (["Ad name"] : List String) →
      c ∈ missingCols ["Ad name"]) :=
  ⟨by decide, missing_columns_reject ["Ad name"] [] ⟨3/400, 5, 1, 15⟩
    "Mockup" (by decide)⟩

/-- C10: a record whose spend is missing is never classified
`Insufficient Data` in any stage — the NaN comparison against the spend
threshold is false, so the record is judged by the later rules exactly as
if its spend met both stage thresholds. -/
theorem missing_spend_not_insufficient (r : AdRecord) (cfg : ThresholdConfig)
    (s : String) (h : r.spend = none) :
    (evaluate r cfg s).2 ≠ "Insufficient Data" ∧
    evaluate r cfg s =
      evaluate
        { r with spend := some (max cfg.initial_spend_threshold
            cfg.cycle2_spend_threshold) } cfg s := by
  have hmax1 : nanLt (some (max cfg.initial_spend_threshold
      cfg.cycle2_spend_threshold)) cfg.initial_spend_threshold = false :=
    nanLt_some_false (le_max_left _ _)
  have hmax2 : nanLt (some (max cfg.initial_spend_threshold
      cfg.cycle2_spend_threshold)) cfg.cycle2_spend_threshold = false :=
    nanLt_some_false (le_max_right _ _)
  by_cases h1 : s = "Mockup"
  · subst h1
    refine ⟨?_, ?_⟩
    · rw [evaluate_stage_mockup]
      simp only [h, nanLt]
      split_ifs <;> simp_all
    · rw [evaluate_stage_mockup, evaluate_stage_mockup]
      simp [h, nanLt, hmax1]
  by_cases h2 : s = "Cycle 1"
  · subst h2
    refine ⟨?_, ?_⟩
    · rw [evaluate_stage_cycle1]
      simp only [h, nanLt]
      split_ifs <;> simp_all
    · rw [evaluate_stage_cycle1, evaluate_stage_cycle1]
      simp [h, nanLt, hmax1]
  by_cases h3 : s = "Cycle 2"
  · subst h3
    refine ⟨?_, ?_⟩
    · rw [evaluate_stage_cycle2]
      simp only [h, nanLt]
      split_ifs <;> simp_all
    · rw [evaluate_stage_cycle2, evaluate_stage_cycle2]
      simp [h, nanLt, hmax2]
  · rw [evaluate_stage_other r cfg s h1 h2 h3,
      evaluate_stage_other _ cfg s h1 h2 h3]
    simp

/-- C10 witness: spend missing, clicks 0, in Mockup. -/
theorem missing_spend_not_insufficient_witness :
    (evaluate ⟨none, none, none, some 0, none⟩ ⟨3/400, 5, 1, 15⟩
      "Mockup").2 ≠ "Insufficient Data" ∧
    evaluate ⟨none, none, none, some 0, none⟩ ⟨3/400, 5, 1, 15⟩ "Mockup" =
      evaluate ⟨some (max 5 15), none, none, some 0, none⟩ ⟨3/400, 5, 1, 15⟩
        "Mockup" :=
  missing_spend_not_insufficient ⟨none, none, none, some 0, none⟩
    ⟨3/400, 5, 1, 15⟩ "Mockup" rfl

end AdReview
